import Mathlib

/-!
Shallow embedding of `src/recommend.py`, a Flask service that filters an
in-memory CSV of insurance products by a synonym-aware category match.
Python strings are embedded as Lean `String`s (lists of characters);
pandas cells of the `Category` column are embedded as `PyVal` (a cell is
either a Python string or the pandas missing value `NaN`; `None` is kept
as a separate constructor because `normalize` tests `is not None`).
-/

set_option maxRecDepth 20000

/-- Decidable equality for `Except`, used to evaluate the embedded
fallible operations on concrete inputs. -/
instance {ε α : Type} [DecidableEq ε] [DecidableEq α] :
    DecidableEq (Except ε α) := fun x y =>
  match x, y with
  | Except.ok a, Except.ok b =>
    if h : a = b then Decidable.isTrue (by rw [h])
    else Decidable.isFalse (fun hh => h (by injection hh))
  | Except.error e, Except.error f =>
    if h : e = f then Decidable.isTrue (by rw [h])
    else Decidable.isFalse (fun hh => h (by injection hh))
  | Except.ok _, Except.error _ => Decidable.isFalse (fun hh => by injection hh)
  | Except.error _, Except.ok _ => Decidable.isFalse (fun hh => by injection hh)

/-- A Python value as far as `normalize` (recommend.py line 62) can observe it:
`None`, the float `nan` that pandas uses for a missing CSV cell, or a string.
`str(nan)` is `"nan"` and `str(s)` is `s` itself. -/
inductive PyVal where
  | none
  | nan
  | str (s : String)
deriving DecidableEq, Repr

/-- Python `str(v)` for the values of `PyVal` (only reached by `normalize`
when `v` is not `None`). -/
def pyStr : PyVal → List Char
  | PyVal.none => "None".data
  | PyVal.nan => "nan".data
  | PyVal.str s => s.data

/-- The characters Python `str.strip()` removes -- the full CPython
`str.isspace()` set (Unicode 14.0 tables): ASCII whitespace including the
separator controls `\x1c`-`\x1f`, next line, no-break space, and the
Unicode space separators. -/
def pyWsChars : List Char :=
  ['\x09', '\x0a', '\x0b', '\x0c', '\x0d', '\x1c', '\x1d', '\x1e', '\x1f',
   '\x20', '\x85', '\xa0', '\u1680', '\u2000', '\u2001', '\u2002', '\u2003',
   '\u2004', '\u2005', '\u2006', '\u2007', '\u2008', '\u2009', '\u200a',
   '\u2028', '\u2029', '\u202f', '\u205f', '\u3000']

/-- Membership in the `str.strip()` whitespace set. -/
def pyWs (c : Char) : Bool :=
  pyWsChars.contains c

/-- Python `str.strip()` on a list of characters: drop leading and trailing
whitespace. -/
def stripL (l : List Char) : List Char :=
  ((l.dropWhile pyWs).reverse.dropWhile pyWs).reverse

/-- The `unidecode` transliteration table restricted to the characters that
occur in this repository (the full Vietnamese alphabet, both cases).
`unidecode` maps every ASCII character to itself; characters outside this
table do not occur in the repository's string data. -/
def unidecodeTable : List (Char × Char) :=
  [('à', 'a'), ('á', 'a'), ('ả', 'a'), ('ã', 'a'), ('ạ', 'a'),
   ('ă', 'a'), ('ằ', 'a'), ('ắ', 'a'), ('ẳ', 'a'), ('ẵ', 'a'), ('ặ', 'a'),
   ('â', 'a'), ('ầ', 'a'), ('ấ', 'a'), ('ẩ', 'a'), ('ẫ', 'a'), ('ậ', 'a'),
   ('è', 'e'), ('é', 'e'), ('ẻ', 'e'), ('ẽ', 'e'), ('ẹ', 'e'),
   ('ê', 'e'), ('ề', 'e'), ('ế', 'e'), ('ể', 'e'), ('ễ', 'e'), ('ệ', 'e'),
   ('ì', 'i'), ('í', 'i'), ('ỉ', 'i'), ('ĩ', 'i'), ('ị', 'i'),
   ('ò', 'o'), ('ó', 'o'), ('ỏ', 'o'), ('õ', 'o'), ('ọ', 'o'),
   ('ô', 'o'), ('ồ', 'o'), ('ố', 'o'), ('ổ', 'o'), ('ỗ', 'o'), ('ộ', 'o'),
   ('ơ', 'o'), ('ờ', 'o'), ('ớ', 'o'), ('ở', 'o'), ('ỡ', 'o'), ('ợ', 'o'),
   ('ù', 'u'), ('ú', 'u'), ('ủ', 'u'), ('ũ', 'u'), ('ụ', 'u'),
   ('ư', 'u'), ('ừ', 'u'), ('ứ', 'u'), ('ử', 'u'), ('ữ', 'u'), ('ự', 'u'),
   ('ỳ', 'y'), ('ý', 'y'), ('ỷ', 'y'), ('ỹ', 'y'), ('ỵ', 'y'),
   ('đ', 'd'),
   ('À', 'A'), ('Á', 'A'), ('Ả', 'A'), ('Ã', 'A'), ('Ạ', 'A'),
   ('Ă', 'A'), ('Ằ', 'A'), ('Ắ', 'A'), ('Ẳ', 'A'), ('Ẵ', 'A'), ('Ặ', 'A'),
   ('Â', 'A'), ('Ầ', 'A'), ('Ấ', 'A'), ('Ẩ', 'A'), ('Ẫ', 'A'), ('Ậ', 'A'),
   ('È', 'E'), ('É', 'E'), ('Ẻ', 'E'), ('Ẽ', 'E'), ('Ẹ', 'E'),
   ('Ê', 'E'), ('Ề', 'E'), ('Ế', 'E'), ('Ể', 'E'), ('Ễ', 'E'), ('Ệ', 'E'),
   ('Ì', 'I'), ('Í', 'I'), ('Ỉ', 'I'), ('Ĩ', 'I'), ('Ị', 'I'),
   ('Ò', 'O'), ('Ó', 'O'), ('Ỏ', 'O'), ('Õ', 'O'), ('Ọ', 'O'),
   ('Ô', 'O'), ('Ồ', 'O'), ('Ố', 'O'), ('Ổ', 'O'), ('Ỗ', 'O'), ('Ộ', 'O'),
   ('Ơ', 'O'), ('Ờ', 'O'), ('Ớ', 'O'), ('Ở', 'O'), ('Ỡ', 'O'), ('Ợ', 'O'),
   ('Ù', 'U'), ('Ú', 'U'), ('Ủ', 'U'), ('Ũ', 'U'), ('Ụ', 'U'),
   ('Ư', 'U'), ('Ừ', 'U'), ('Ứ', 'U'), ('Ử', 'U'), ('Ữ', 'U'), ('Ự', 'U'),
   ('Ỳ', 'Y'), ('Ý', 'Y'), ('Ỷ', 'Y'), ('Ỹ', 'Y'), ('Ỵ', 'Y'),
   ('Đ', 'D')]

/-- `unidecode` on one character: transliterate via the table, identity
otherwise (in particular on all ASCII characters, as in the library). -/
def unidecodeChar (c : Char) : Char :=
  (unidecodeTable.lookup c).getD c

/-- The ASCII case-folding table of Python `str.lower()` (the non-ASCII
uppercase letters of this repository are transliterated away by `unidecode`
before `lower` is applied, so the ASCII fragment suffices). -/
def lowerTable : List (Char × Char) :=
  [('A', 'a'), ('B', 'b'), ('C', 'c'), ('D', 'd'), ('E', 'e'), ('F', 'f'),
   ('G', 'g'), ('H', 'h'), ('I', 'i'), ('J', 'j'), ('K', 'k'), ('L', 'l'),
   ('M', 'm'), ('N', 'n'), ('O', 'o'), ('P', 'p'), ('Q', 'q'), ('R', 'r'),
   ('S', 's'), ('T', 't'), ('U', 'u'), ('V', 'v'), ('W', 'w'), ('X', 'x'),
   ('Y', 'y'), ('Z', 'z')]

/-- Python `str.lower()` on one character (ASCII fragment). -/
def pyLowerChar (c : Char) : Char :=
  (lowerTable.lookup c).getD c

/-- The composite `unidecode(...).lower().strip()` applied by `normalize`
to a non-`None` value's character data. -/
def normalizeCore (l : List Char) : List Char :=
  stripL ((l.map unidecodeChar).map pyLowerChar)

/-- `normalize` (recommend.py lines 62-63):
`unidecode(str(s)).lower().strip() if s is not None else ""`. -/
def normalizeL (v : PyVal) : List Char :=
  match v with
  | PyVal.none => []
  | v => normalizeCore (pyStr v)

/-- `normalize` packaged as a Lean `String`. -/
def normalizeS (v : PyVal) : String :=
  String.mk (normalizeL v)

/-- `normalize` applied to a Python string. -/
def normStr (s : String) : String :=
  normalizeS (PyVal.str s)

/-- `CATEGORY_SYNONYMS` (recommend.py lines 15-52), in declaration order. -/
def CATEGORY_SYNONYMS : List (String × List String) :=
  [("accident",
    ["tai nan", "tai-nan", "tai nạn", "tai nạn cá nhân", "tai nạn lao động",
     "personal accident", "accident", "pa", "tai nạn 24/7"]),
   ("health",
    ["suc khoe", "sức khỏe", "suc-khoe", "health", "medical", "healthcare",
     "chăm sóc sức khỏe", "viện phí", "benh vien", "hospitalization"]),
   ("life",
    ["nhân thọ", "nhan tho", "nhan-tho", "life", "life insurance",
     "term life", "whole life", "bảo vệ tài chính", "bảo vệ gia đình"]),
   ("critical illness",
    ["bệnh hiểm nghèo", "critical illness", "ci", "ung thư", "cancer",
     "tim mạch", "đột quỵ", "tai biến", "man tinh", "mãn tính", "bệnh nặng",
     "bệnh nghiêm trọng"]),
   ("hospital",
    ["bệnh viện", "benh vien", "hospital", "hospitalization", "nằm viện",
     "viện phí", "medical cost", "inpatient", "outpatient", "ngoại trú",
     "nội trú", "phẫu thuật", "surgery"]),
   ("children",
    ["trẻ em", "trẻ con", "trẻ nhỏ", "child", "children", "kid", "kids",
     "bảo hiểm trẻ em", "student insurance", "baby", "mầm non", "học sinh"]),
   ("travel",
    ["du lịch", "du-lich", "travel", "travel insurance", "trip", "holiday",
     "tour", "overseas", "bảo hiểm du lịch", "bảo hiểm quốc tế"]),
   ("dental",
    ["nha khoa", "dental", "răng", "răng miệng", "chăm sóc răng",
     "chỉnh nha", "niềng răng", "nha sĩ", "trám răng", "làm răng",
     "nha khoa thẩm mỹ"]),
   ("vision",
    ["thị lực", "mắt", "kính", "mắt kính", "vision", "eye", "eye care",
     "optical", "optometry", "khám mắt", "bảo hiểm mắt"])]

/-- The key under which a synonym is registered (recommend.py line 58):
`unidecode(s).lower()` -- note, unlike `normalize`, without `.strip()`. -/
def canonKey (s : String) : String :=
  String.mk ((s.data.map unidecodeChar).map pyLowerChar)

/-- The `(key, canonical)` assignments performed by the loop in
recommend.py lines 56-58, in execution order. -/
def canonPairs : List (String × String) :=
  (CATEGORY_SYNONYMS.map (fun p => p.2.map (fun s => (canonKey s, p.1)))).flatten

/-- One Python dict assignment `d[k] = v`, with the dict modelled by its
lookup function (assignment overwrites any earlier binding of `k`). -/
def dictStep (f : String → Option String) (p : String × String) :
    String → Option String :=
  fun q => if q = p.1 then some p.2 else f q

/-- The `CANONICAL` dict (recommend.py lines 55-58), as its lookup
function: the assignments of `canonPairs` performed in order over the
initially empty dict. -/
def CANONICAL : String → Option String :=
  canonPairs.foldl dictStep (fun _ => Option.none)

/-- Category resolution (recommend.py line 135):
`CANONICAL.get(normalize(c), normalize(c))`. -/
def resolveCat (c : String) : String :=
  (CANONICAL (normStr c)).getD (normStr c)

/-- A dataset row: the `Category` cell plus the rest of the record
(abstracted as a number; the service never inspects the other columns,
it only carries them through to the response). -/
structure Row where
  category : PyVal
  payload : Nat
deriving DecidableEq, Repr

/-- The cached normalized-category column `_category_n`
(recommend.py line 82): `df["Category"].apply(normalize)`.  A missing cell
is the pandas float `nan`, not Python `None`. -/
def catNorm (r : Row) : String :=
  normalizeS r.category

/-- The argument passed to pandas `Series.str.contains`
(recommend.py line 146): either a compiled regex built by
`re.compile("(" + "|".join(syns_norm) + ")")` from the `re.escape`d
normalized synonyms (line 145), or a plain string literal. -/
inductive PdPattern where
  | compiledRe (alts : List String)
  | literal (s : String)

/-- Contiguous-substring occurrence of `p` somewhere in the list. -/
def hasSubstr (p : List Char) : List Char → Bool
  | [] => p.isEmpty
  | c :: r => p.isPrefixOf (c :: r) || hasSubstr p r

/-- Substring test `p` inside `x` (Python `p in x` for strings; the empty
string is contained in every string). -/
def isSubstr (p x : String) : Bool :=
  hasSubstr p.data x.data

/-- The element-level test pandas runs for `str.contains(pat, regex=False)`
on an object-dtype column: `pat in x`.  When `pat` is a compiled regex
(`re.Pattern`), `str.__contains__` raises `TypeError` ("requires string as
left operand"), so the test fails with an exception instead of producing a
boolean. -/
def pdContainsElem (pat : PdPattern) (x : String) : Except Unit Bool :=
  match pat with
  | PdPattern.literal p => Except.ok (isSubstr p x)
  | PdPattern.compiledRe _ => Except.error ()

/-- Pandas `Series.str.contains(pat, na=na, regex=False)` over an
object-dtype string column.  Pandas maps the element test over the column
inside `ObjectStringArrayMixin._str_map`, whose fallback catches a
`TypeError` raised by the test on an element and substitutes the `na`
value for that element; hence a compiled-regex pattern with `regex=False`
yields `na` at every string element rather than propagating the error. -/
def pdSeriesContains (col : List String) (pat : PdPattern) (na : Bool) :
    List Bool :=
  col.map (fun x =>
    match pdContainsElem pat x with
    | Except.ok b => b
    | Except.error _ => na)

/-- The search semantics the compiled pattern of line 145 would have if it
were used as a regex: `re.escape` makes each alternative a literal, so
`cat_re.search(x)` succeeds iff some normalized synonym occurs in `x` as a
substring.  (Line 146 passes `regex=False`, so the code never actually
runs this; it is the intended matcher stated by the spec.) -/
def reSearchAlts (alts : List String) (x : String) : Bool :=
  alts.any (fun a => isSubstr a x)

/-- The deduplicated `wanted` set (recommend.py lines 133-135).  Python
set iteration order is unspecified; insertion order is used here, and no
observable result of `recommend` depends on the order (the synonyms are
only combined by boolean disjunction). -/
def wantedOf (cats : List String) : List String :=
  cats.foldl
    (fun acc c =>
      let w := resolveCat c
      if acc.contains w then acc else acc ++ [w])
    []

/-- Synonym expansion (recommend.py lines 140-142):
`CATEGORY_SYNONYMS.get(canon, [canon])` concatenated over `wanted`. -/
def synsOf (wanted : List String) : List String :=
  (wanted.map (fun canon => (CATEGORY_SYNONYMS.lookup canon).getD [canon])).flatten

/-- The normalized synonym alternatives (recommend.py line 143):
`[re.escape(normalize(s)) for s in syns if s]`.  `re.escape` only inserts
backslashes that make the string a regex literal for itself, so the
alternatives are carried unescaped and matched literally. -/
def synsNormOf (cats : List String) : List String :=
  ((synsOf (wantedOf cats)).filter (fun s => s ≠ "")).map (fun s => normStr s)

/-- The rows selected by the boolean mask of recommend.py lines 137-148:
mask starts all-`True`; when `wanted` and `syns_norm` are non-empty it is
conjoined with `str.contains(cat_re, na=False, regex=False)` over the
cached `_category_n` column, and `df_cache[mask]` keeps the rows whose
mask entry is `True`, in original order. -/
def filteredRows (df : List Row) (cats : List String) : List Row :=
  let wanted := wantedOf cats
  let mask : List Bool :=
    if wanted.isEmpty then df.map (fun _ => true)
    else
      let synsNorm := synsNormOf cats
      if synsNorm.isEmpty then df.map (fun _ => true)
      else pdSeriesContains (df.map catNorm) (PdPattern.compiledRe synsNorm) false
  ((df.zip mask).filter (fun p => p.2)).map (fun p => p.1)

/-- The JSON `limit` field of the request body as the Python code can
receive it from `request.get_json()`: absent, a string, an int (JSON
booleans also land here since Python `bool` is an `int` subtype), a float,
or any other JSON value (null, array, object).  A float is represented by
`some t` (finite, truncating toward zero to `t`, which is what Python
`int()` returns on it) or `Option.none` (`nan` or an infinity, on which
Python `int()` raises). -/
inductive JsonLimit where
  | absent
  | str (s : String)
  | int (n : Int)
  | float (t : Option Int)
  | other
deriving DecidableEq

/-- Start codepoints of the 66 contiguous runs of Unicode 14.0's decimal
digits (category `Nd`); every run is exactly the aligned digits `0..9` of
one script.  CPython's `int(str)` accepts exactly these characters as
digits, each contributing its offset within its run. -/
def ndRangeStarts : List Nat :=
  [0x30, 0x660, 0x6f0, 0x7c0, 0x966, 0x9e6, 0xa66, 0xae6, 0xb66, 0xbe6,
   0xc66, 0xce6, 0xd66, 0xde6, 0xe50, 0xed0, 0xf20, 0x1040, 0x1090, 0x17e0,
   0x1810, 0x1946, 0x19d0, 0x1a80, 0x1a90, 0x1b50, 0x1bb0, 0x1c40, 0x1c50,
   0xa620, 0xa8d0, 0xa900, 0xa9d0, 0xa9f0, 0xaa50, 0xabf0, 0xff10, 0x104a0,
   0x10d30, 0x11066, 0x110f0, 0x11136, 0x111d0, 0x112f0, 0x11450, 0x114d0,
   0x11650, 0x116c0, 0x11730, 0x118e0, 0x11950, 0x11c50, 0x11d50, 0x11da0,
   0x16a60, 0x16ac0, 0x16b50, 0x1d7ce, 0x1d7d8, 0x1d7e2, 0x1d7ec, 0x1d7f6,
   0x1e140, 0x1e2f0, 0x1e950, 0x1fbf0]

/-- The decimal value of a Unicode decimal digit, `Option.none` for every
other character. -/
def pyDigitVal (c : Char) : Option Nat :=
  ndRangeStarts.findSome? (fun s =>
    if s ≤ c.toNat && c.toNat ≤ s + 9 then some (c.toNat - s) else Option.none)

/-- Whether `int(str)` accepts `c` as a digit. -/
def isPyDigit (c : Char) : Bool :=
  (pyDigitVal c).isSome

/-- Valid continuation of a digit run after a digit: more digits, with a
single grouping underscore allowed only between two digits. -/
def pyDigitsRest : List Char → Bool
  | [] => true
  | '_' :: [] => false
  | '_' :: c :: r => isPyDigit c && pyDigitsRest r
  | c :: r => isPyDigit c && pyDigitsRest r

/-- A complete digit run for `int(str)`: it must begin with a digit
(`"1_0"` parses; `"_1"`, `"1_"`, `"1__0"` and `""` do not). -/
def pyDigitsRun : List Char → Bool
  | [] => false
  | c :: r => isPyDigit c && pyDigitsRest r

/-- Numeric value of a digit run, ignoring grouping underscores. -/
def pyDigitsVal (l : List Char) : Nat :=
  (l.filter (fun c => c ≠ '_')).foldl
    (fun n c => 10 * n + (pyDigitVal c).getD 0) 0

/-- The whitespace `int(str)` skips around the number: CPython's
`Py_UNICODE_ISSPACE` set, which is the `str.strip()` set minus the
separator controls `\x1c`-`\x1f` (those make `int()` raise even though
`strip()` removes them). -/
def pyIntWs (c : Char) : Bool :=
  pyWs c && !(c = '\x1c' || c = '\x1d' || c = '\x1e' || c = '\x1f')

/-- Python `int(s)` on a string (the code applies it to the raw
`limit_raw`, not the stripped copy): `int` itself skips its
surrounding-whitespace set, then accepts an optional ASCII sign directly
followed by a run of Unicode decimal digits with underscore grouping;
anything else raises `ValueError`, modelled as `Option.none`. -/
def pyIntOfString (s : String) : Option Int :=
  let l := ((s.data.dropWhile pyIntWs).reverse.dropWhile pyIntWs).reverse
  match l with
  | '-' :: ds =>
    if pyDigitsRun ds then some (-(pyDigitsVal ds : Int)) else Option.none
  | '+' :: ds =>
    if pyDigitsRun ds then some (pyDigitsVal ds : Int) else Option.none
  | ds =>
    if pyDigitsRun ds then some (pyDigitsVal ds : Int) else Option.none

/-- Python `limit_raw.strip().lower()` for the `"all"` test
(recommend.py line 122). -/
def stripLower (s : String) : String :=
  String.mk ((stripL s.data).map pyLowerChar)

/-- The limit-coercion block of recommend.py lines 119-131.  The result is
`Except`: `Except.error` marks the one uncaught exception in the block,
`int()` applied to a non-finite float (the string branch wraps its `int()`
call in `try/except`, the int/float branch does not), which the outer
handler of `recommend` turns into an error response. -/
def parseLimit : JsonLimit → Except Unit (Option Nat)
  | JsonLimit.absent => Except.ok Option.none
  | JsonLimit.str s =>
    if stripLower s = "all" then Except.ok Option.none
    else
      match pyIntOfString s with
      | some v => Except.ok (if v ≤ 0 then Option.none else some v.toNat)
      | Option.none => Except.ok Option.none
  | JsonLimit.int n => Except.ok (if n ≤ 0 then Option.none else some n.toNat)
  | JsonLimit.float (some t) =>
    Except.ok (if t ≤ 0 then Option.none else some t.toNat)
  | JsonLimit.float Option.none => Except.error ()
  | JsonLimit.other => Except.ok Option.none

/-- The response of `/recommend`: a success body with the matching rows
(the hidden `_category_n` column removed, which `Row` never contained), or
an error response produced by the outer exception handler
(recommend.py lines 154-155). -/
inductive RecResult where
  | ok (items : List Row)
  | error
deriving DecidableEq, Repr

/-- The `/recommend` handler (recommend.py lines 109-155) on a loaded
dataset, for a body with a list of category strings and a `limit`: parse
the limit (the only step that can raise), build the mask, filter, truncate. -/
def recommendR (df : List Row) (cats : List String) (lim : JsonLimit) :
    RecResult :=
  match parseLimit lim with
  | Except.error _ => RecResult.error
  | Except.ok limOpt =>
    let filtered := filteredRows df cats
    RecResult.ok (match limOpt with
      | Option.none => filtered
      | some k => filtered.take k)

/-- The outcome of one attempt to read the CSV source, as `load_csv`
(recommend.py lines 74-83) can observe it: the path does not exist, no
accepted encoding decodes the file, the decoded table lacks the
`Category` column, or a well-formed table of rows. -/
inductive CsvSource where
  | missing
  | unreadable
  | badSchema
  | good (rows : List Row)

/-- The three exceptions `load_csv` can raise: `FileNotFoundError`
(line 76), the `RuntimeError` of `_read_csv_any` (line 72), and the
`ValueError` for a missing `Category` column (line 80). -/
inductive LoadErr where
  | fileNotFound
  | noDecode
  | schemaMissingCategory
deriving DecidableEq, Repr

/-- `load_csv` (recommend.py lines 74-83): fail on a missing, undecodable
or schema-invalid source, otherwise return the rows (the `_category_n`
column it attaches is the derived `catNorm`, determined by the rows). -/
def load_csv : CsvSource → Except LoadErr (List Row)
  | CsvSource.missing => Except.error LoadErr.fileNotFound
  | CsvSource.unreadable => Except.error LoadErr.noDecode
  | CsvSource.badSchema => Except.error LoadErr.schemaMissingCategory
  | CsvSource.good rows => Except.ok rows

/-- The `/reload` response: HTTP 200 with a row count, or HTTP 400 with
the exception detail (recommend.py lines 100-107). -/
inductive ReloadResp where
  | ok (rows : Nat)
  | failed (e : LoadErr)
deriving DecidableEq, Repr

/-- The `/reload` handler (recommend.py lines 100-107).  Python evaluates
`load_csv()` before assigning to `df_cache`, so when it raises, the
assignment never happens and the cache is returned unchanged. -/
def reload_csv (cache : Option (List Row)) (src : CsvSource) :
    Option (List Row) × ReloadResp :=
  match load_csv src with
  | Except.ok df => (some df, ReloadResp.ok df.length)
  | Except.error e => (cache, ReloadResp.failed e)

/-! Helper lemmas. -/

/-- Dropping again after dropping changes nothing. -/
theorem dropWhile_dropWhile {α : Type} (p : α → Bool) (l : List α) :
    (l.dropWhile p).dropWhile p = l.dropWhile p := by
  induction l with
  | nil => rfl
  | cons a t ih =>
    by_cases h : p a
    · simp [List.dropWhile_cons, h, ih]
    · simp [List.dropWhile_cons, h]

/-- A list whose head fails the predicate is unchanged by `dropWhile`. -/
theorem dropWhile_eq_self_of_head {α : Type} (p : α → Bool) (l : List α)
    (h : ∀ a, l.head? = some a → p a = false) : l.dropWhile p = l := by
  cases l with
  | nil => rfl
  | cons a t => simp [List.dropWhile_cons, h a rfl]

/-- A non-empty prefix determines the head. -/
theorem head?_of_pre {α : Type} {l₁ l₂ : List α} (h : l₁ <+: l₂)
    (hne : l₁ ≠ []) : l₂.head? = l₁.head? := by
  obtain ⟨t, rfl⟩ := h
  cases l₁ with
  | nil => exact absurd rfl hne
  | cons a r => rfl

/-- The head of a stripped list is not whitespace. -/
theorem stripL_head (l : List Char) :
    ∀ a, (stripL l).head? = some a → pyWs a = false := by
  intro a ha
  have hsuf : (stripL l).reverse <:+ (l.dropWhile pyWs).reverse := by
    unfold stripL
    rw [List.reverse_reverse]
    exact List.dropWhile_suffix pyWs
  have hpre : stripL l <+: l.dropWhile pyWs := List.reverse_suffix.mp hsuf
  have hne : stripL l ≠ [] := by
    intro h0
    rw [h0] at ha
    cases ha
  have hh : (l.dropWhile pyWs).head? = some a := by
    rw [head?_of_pre hpre hne]
    exact ha
  have h2 := List.head?_dropWhile_not pyWs l
  rw [hh] at h2
  exact h2

/-- Python `strip` is idempotent. -/
theorem stripL_idem (l : List Char) : stripL (stripL l) = stripL l := by
  have h1 : (stripL l).dropWhile pyWs = stripL l :=
    dropWhile_eq_self_of_head _ _ (stripL_head l)
  calc stripL (stripL l)
      = (((stripL l).dropWhile pyWs).reverse.dropWhile pyWs).reverse := rfl
    _ = ((stripL l).reverse.dropWhile pyWs).reverse := by rw [h1]
    _ = ((((l.dropWhile pyWs).reverse.dropWhile pyWs).reverse.reverse).dropWhile pyWs).reverse := rfl
    _ = (((l.dropWhile pyWs).reverse.dropWhile pyWs).dropWhile pyWs).reverse := by
        rw [List.reverse_reverse]
    _ = ((l.dropWhile pyWs).reverse.dropWhile pyWs).reverse := by rw [dropWhile_dropWhile]
    _ = stripL l := rfl

/-- A successful association-list lookup returns the second component of
some member. -/
theorem mem_of_lookup {l : List (Char × Char)} {c v : Char}
    (h : l.lookup c = some v) : ∃ p, p ∈ l ∧ p.2 = v := by
  induction l with
  | nil => cases h
  | cons q t ih =>
    obtain ⟨k, b⟩ := q
    cases hk : c == k with
    | true =>
      simp only [List.lookup, hk] at h
      refine ⟨(k, b), by simp, ?_⟩
      first
      | exact h
      | exact Option.some.inj h
    | false =>
      simp only [List.lookup, hk] at h
      obtain ⟨p, hp, hv⟩ := ih h
      exact ⟨p, by simp [hp], hv⟩

/-- A character is stable when both `unidecode` and `lower` fix it. -/
def GoodCh (d : Char) : Prop :=
  unidecodeChar d = d ∧ pyLowerChar d = d

instance (d : Char) : Decidable (GoodCh d) := by
  unfold GoodCh
  infer_instance

/-- Every lower-cased transliteration value is stable. -/
theorem goodCh_unidecode_values :
    ∀ p ∈ unidecodeTable, GoodCh (pyLowerChar p.2) := by decide

/-- Every case-folding value is stable. -/
theorem goodCh_lower_values : ∀ p ∈ lowerTable, GoodCh p.2 := by decide

/-- After transliterating and lower-casing, a character is stable: a second
`unidecode` or `lower` pass changes nothing. -/
theorem goodCh_after (c : Char) : GoodCh (pyLowerChar (unidecodeChar c)) := by
  cases hu : unidecodeTable.lookup c with
  | some v =>
    have hv : unidecodeChar c = v := by
      unfold unidecodeChar
      rw [hu]
      rfl
    rw [hv]
    obtain ⟨p, hp, hpv⟩ := mem_of_lookup hu
    have hg := goodCh_unidecode_values p hp
    rw [hpv] at hg
    exact hg
  | none =>
    have hv : unidecodeChar c = c := by
      unfold unidecodeChar
      rw [hu]
      rfl
    rw [hv]
    cases hlk : lowerTable.lookup c with
    | some w =>
      have hw : pyLowerChar c = w := by
        unfold pyLowerChar
        rw [hlk]
        rfl
      rw [hw]
      obtain ⟨p, hp, hpv⟩ := mem_of_lookup hlk
      have hg := goodCh_lower_values p hp
      rw [hpv] at hg
      exact hg
    | none =>
      have hw : pyLowerChar c = c := by
        unfold pyLowerChar
        rw [hlk]
        rfl
      rw [hw]
      exact ⟨hv, hw⟩

/-- Mapping a function that fixes every member is the identity. -/
theorem map_eq_self {α : Type} {f : α → α} {l : List α}
    (h : ∀ a ∈ l, f a = a) : l.map f = l := by
  induction l with
  | nil => rfl
  | cons a t ih =>
    simp only [List.map_cons, h a (by simp)]
    rw [ih (fun b hb => h b (by simp [hb]))]

/-- Stripping only removes members. -/
theorem mem_stripL {a : Char} {l : List Char} (h : a ∈ stripL l) : a ∈ l := by
  unfold stripL at h
  rw [List.mem_reverse] at h
  have h1 : a ∈ (l.dropWhile pyWs).reverse :=
    (List.dropWhile_suffix pyWs).subset h
  rw [List.mem_reverse] at h1
  exact (List.dropWhile_suffix pyWs).subset h1

/-- `normalizeCore` is idempotent: every character it produces is fixed by
a further `unidecode` and `lower` pass, and `strip` is idempotent. -/
theorem normalizeCore_idem (l : List Char) :
    normalizeCore (normalizeCore l) = normalizeCore l := by
  have hmem : ∀ a ∈ normalizeCore l, GoodCh a := by
    intro a ha
    unfold normalizeCore at ha
    have ha1 := mem_stripL ha
    rw [List.mem_map] at ha1
    obtain ⟨b, hb, rfl⟩ := ha1
    rw [List.mem_map] at hb
    obtain ⟨c, _, rfl⟩ := hb
    exact goodCh_after c
  have hud : (normalizeCore l).map unidecodeChar = normalizeCore l :=
    map_eq_self (fun a ha => (hmem a ha).1)
  have hlo : (normalizeCore l).map pyLowerChar = normalizeCore l :=
    map_eq_self (fun a ha => (hmem a ha).2)
  calc normalizeCore (normalizeCore l)
      = stripL (((normalizeCore l).map unidecodeChar).map pyLowerChar) := rfl
    _ = stripL (normalizeCore l) := by rw [hud, hlo]
    _ = stripL (stripL ((l.map unidecodeChar).map pyLowerChar)) := rfl
    _ = stripL ((l.map unidecodeChar).map pyLowerChar) := stripL_idem _
    _ = normalizeCore l := rfl

/-- The lookup function built by folding dict assignments returns the value
of the last assignment whose key matches (`find?` on the reversed
assignment list), falling back to the initial dict. -/
theorem foldl_dictStep (ps : List (String × String)) :
    ∀ (f : String → Option String) (q : String),
      (ps.foldl dictStep f) q =
        match ps.reverse.find? (fun p => p.1 == q) with
        | some p => some p.2
        | Option.none => f q := by
  induction ps with
  | nil =>
    intro f q
    rfl
  | cons p ps ih =>
    intro f q
    rw [List.foldl_cons, ih (dictStep f p) q, List.reverse_cons, List.find?_append]
    cases hf : ps.reverse.find? (fun r => r.1 == q) with
    | some r => simp [Option.or]
    | none =>
      simp only [Option.or]
      cases hq : p.1 == q with
      | true =>
        have : q = p.1 := (beq_iff_eq.mp hq).symm
        simp [List.find?, hq, dictStep, this]
      | false =>
        have : ¬ q = p.1 := fun hqq => by
          rw [hqq] at hq
          simp at hq
        simp [List.find?, hq, dictStep, this]

/-- Selecting with an all-`True` mask returns the dataset unchanged. -/
theorem filter_true_mask (df : List Row) :
    ((df.zip (df.map (fun _ => true))).filter (fun p => p.2)).map
      (fun p => p.1) = df := by
  induction df with
  | nil => rfl
  | cons r t ih =>
    simp only [List.map_cons, List.zip_cons_cons, List.filter_cons]
    simpa using ih

/-! Concrete datasets used by the claim theorems. -/

/-- A row whose Category is the Vietnamese comprehensive-health product. -/
def rowHealth : Row := ⟨PyVal.str "Bảo hiểm sức khỏe toàn diện", 1⟩

/-- A row whose category text literally contains the synonym `medical`. -/
def rowMedical : Row := ⟨PyVal.str "Family medical plan", 2⟩

/-- The two-row dataset of the spec's matching example. -/
def dfC1 : List Row := [rowHealth, rowMedical]

/-- A row whose Category cell is missing (pandas `NaN`). -/
def rowNaN : Row := ⟨PyVal.nan, 7⟩

/-- A five-row dataset for the limit example. -/
def df5 : List Row :=
  [⟨PyVal.str "a", 1⟩, ⟨PyVal.str "b", 2⟩, ⟨PyVal.str "c", 3⟩,
   ⟨PyVal.str "d", 4⟩, ⟨PyVal.str "e", 5⟩]

/-- C1: the claim says a /recommend query for the single category
"sức khỏe" returns both the row with Category "Bảo hiểm sức khỏe toàn
diện" and the row containing "medical".  The code resolves the query to
"health" and both rows do satisfy the intended substring matcher built on
line 145, but line 146 hands the compiled pattern to `str.contains` with
`regex=False`, whose per-element `pat in x` raises `TypeError` and is
replaced by `na=False`, so the endpoint returns zero rows. -/
theorem c1_suc_khoe_query_returns_no_rows :
    recommendR dfC1 ["sức khỏe"] JsonLimit.absent = RecResult.ok []
    ∧ resolveCat "sức khỏe" = "health"
    ∧ reSearchAlts (synsNormOf ["sức khỏe"]) (catNorm rowHealth) = true
    ∧ reSearchAlts (synsNormOf ["sức khỏe"]) (catNorm rowMedical) = true := by
  decide

/-- C2 counterexample: a limit that is a non-finite float (for example the
JSON number `1e999`, parsed to `inf`, or `NaN`) reaches `int(limit_raw)`
in the uncovered int/float branch, raises, and yields the error response,
contradicting the claim that every malformed limit degrades to success. -/
theorem c2_counterexample_nonfinite_limit :
    recommendR [⟨PyVal.str "x", 0⟩] ["health"] (JsonLimit.float Option.none)
      = RecResult.error := by
  decide

/-- C2 amended: for every loaded dataset and every request whose limit is
not a non-finite float, /recommend returns a success response; unresolved
categories and unparseable limit strings never raise. -/
theorem c2_success_unless_nonfinite_limit (df : List Row) (cats : List String)
    (lim : JsonLimit) (h : lim ≠ JsonLimit.float Option.none) :
    ∃ items, recommendR df cats lim = RecResult.ok items := by
  unfold recommendR
  cases hp : parseLimit lim with
  | ok l =>
    exact ⟨_, rfl⟩
  | error e =>
    exfalso
    apply h
    cases lim with
    | absent => simp [parseLimit] at hp
    | str s =>
      simp only [parseLimit] at hp
      split at hp
      · cases hp
      · split at hp <;> cases hp
    | int n => simp [parseLimit] at hp
    | float t =>
      cases t with
      | none => rfl
      | some v => simp [parseLimit] at hp
    | other => simp [parseLimit] at hp

/-- C2 witness: a concrete successful call through the amended theorem. -/
theorem c2_success_witness :
    ∃ items,
      recommendR dfC1 ["sức khỏe"] (JsonLimit.str "bogus") = RecResult.ok items :=
  c2_success_unless_nonfinite_limit dfC1 ["sức khỏe"] (JsonLimit.str "bogus")
    (by decide)

/-- C3 counterexample: `normalize` does not touch the ASCII hyphen, so
`normalize("tai-nan")` keeps it and differs from `normalize("Tai Nạn")`,
refuting the claim that the three spellings normalize identically. -/
theorem c3_counterexample_hyphen :
    normStr "Tai Nạn" = "tai nan"
    ∧ normStr "tai-nan" = "tai-nan"
    ∧ normStr "TAI NAN" = "tai nan"
    ∧ normStr "tai-nan" ≠ normStr "Tai Nạn" := by
  decide

/-- C3 amended: `normalize("Tai Nạn")` and `normalize("TAI NAN")` agree
(case- and diacritic-insensitivity), `normalize("tai-nan")` differs by its
hyphen, and all three spellings nevertheless resolve to the canonical
category "accident" through the synonym table. -/
theorem c3_amended_normalization :
    normStr "Tai Nạn" = normStr "TAI NAN"
    ∧ normStr "tai-nan" ≠ normStr "TAI NAN"
    ∧ resolveCat "Tai Nạn" = "accident"
    ∧ resolveCat "tai-nan" = "accident"
    ∧ resolveCat "TAI NAN" = "accident" := by
  decide

/-- C10: a missing Category cell is the pandas float `nan`, which is not
`None`, so the cached normalized category is `str(nan) = "nan"`, not the
empty string; the unresolved query "nan" therefore satisfies the intended
substring matcher against such a row, yet the endpoint returns zero rows
because the compiled pattern is passed with `regex=False` (same slip as in
the C1 theorem). -/
theorem c10_nan_category_cached_as_nan :
    catNorm rowNaN = "nan"
    ∧ ("nan" : String) ≠ ""
    ∧ resolveCat "nan" = "nan"
    ∧ reSearchAlts (synsNormOf ["nan"]) (catNorm rowNaN) = true
    ∧ recommendR [rowNaN] ["nan"] JsonLimit.absent = RecResult.ok [] := by
  decide

/-- C4: `normalize` is idempotent on every string, and `normalize(None)`
is the empty string. -/
theorem c4_normalize_idempotent_and_none :
    (∀ s : String, normStr (normStr s) = normStr s)
    ∧ normalizeS PyVal.none = "" := by
  constructor
  · intro s
    have h1 : ∀ t : String, normStr t = String.mk (normalizeCore t.data) :=
      fun t => rfl
    have h2 : ∀ l : List Char, (String.mk l).data = l := fun l => rfl
    rw [h1 s, h1 (String.mk (normalizeCore s.data)), h2, normalizeCore_idem]
  · rfl

/-- Every synonym phrase declared in the table has no surrounding
whitespace, so its `normalize` form and its registration key coincide. -/
theorem declared_synonym_key :
    ∀ p ∈ CATEGORY_SYNONYMS, ∀ s ∈ p.2, normStr s = canonKey s := by
  decide

/-- The `CANONICAL` lookup function equals a last-match search over the
assignment list. -/
theorem canonical_eq_find (k : String) :
    CANONICAL k =
      match canonPairs.reverse.find? (fun p => p.1 == k) with
      | some p => some p.2
      | Option.none => Option.none := by
  unfold CANONICAL
  exact foldl_dictStep canonPairs (fun _ => Option.none) k

/-- C5 counterexample: "viện phí" is a declared synonym of the canonical
category "health", yet resolution returns "hospital", because the later
"hospital" entry re-registers the same normalized key. -/
theorem c5_counterexample_vien_phi :
    ((CATEGORY_SYNONYMS.lookup "health").getD []).contains "viện phí" = true
    ∧ resolveCat "viện phí" = "hospital"
    ∧ ("hospital" : String) ≠ "health" := by
  decide

/-- C5 amended: resolving a declared synonym returns the canonical
category of the LAST declaration (in table order) that registered the same
normalized key -- which is the declaring category itself except for the
keys "benh vien", "vien phi" and "hospitalization" shared by "health" and
the later "hospital"; resolving a string matching no declared key returns
its own normalized form unchanged. -/
theorem c5_resolution_amended :
    (∀ C syns s, (C, syns) ∈ CATEGORY_SYNONYMS → s ∈ syns →
      resolveCat s =
        ((canonPairs.reverse.find? (fun p => p.1 == canonKey s)).map
          Prod.snd).getD (canonKey s))
    ∧ (∀ c : String,
        canonPairs.find? (fun p => p.1 == normStr c) = Option.none →
        resolveCat c = normStr c) := by
  constructor
  · intro C syns s hmem hs
    have hk : normStr s = canonKey s := declared_synonym_key (C, syns) hmem s hs
    unfold resolveCat
    rw [hk, canonical_eq_find (canonKey s)]
    cases hf : canonPairs.reverse.find? (fun p => p.1 == canonKey s) with
    | some p => rfl
    | none => rfl
  · intro c hnone
    have hrev : canonPairs.reverse.find? (fun p => p.1 == normStr c)
        = Option.none := by
      rw [List.find?_eq_none] at hnone ⊢
      intro x hx
      exact hnone x (List.mem_reverse.mp hx)
    unfold resolveCat
    rw [canonical_eq_find (normStr c), hrev]
    rfl

/-- C5 witness: the amended rule evaluated at the declared synonym
"viện phí" of "health" and at the unknown string "không có". -/
theorem c5_resolution_witness :
    resolveCat "viện phí" =
      ((canonPairs.reverse.find? (fun p => p.1 == canonKey "viện phí")).map
        Prod.snd).getD (canonKey "viện phí")
    ∧ resolveCat "không có" = normStr "không có" :=
  ⟨c5_resolution_amended.1 "health"
      ["suc khoe", "sức khỏe", "suc-khoe", "health", "medical", "healthcare",
       "chăm sóc sức khỏe", "viện phí", "benh vien", "hospitalization"]
      "viện phí" (by decide) (by decide),
   c5_resolution_amended.2 "không có" (by decide)⟩

/-- C6: the canonical lookup returns the binding of the last assignment in
declaration order for every key; concretely, "benh vien" is first
registered by "health" and last by the later-declared "hospital", and the
lookup returns "hospital". -/
theorem c6_last_registered_wins :
    (∀ k : String, CANONICAL k =
      (canonPairs.reverse.find? (fun p => p.1 == k)).map Prod.snd)
    ∧ canonKey "bệnh viện" = canonKey "benh vien"
    ∧ canonPairs.find? (fun p => p.1 == "benh vien")
        = some ("benh vien", "health")
    ∧ canonPairs.reverse.find? (fun p => p.1 == "benh vien")
        = some ("benh vien", "hospital")
    ∧ CANONICAL "benh vien" = some "hospital" := by
  refine ⟨?_, by decide, by decide, by decide, by decide⟩
  intro k
  rw [canonical_eq_find k]
  cases hf : canonPairs.reverse.find? (fun p => p.1 == k) with
  | some p => rfl
  | none => rfl

/-- C7: with no requested categories the mask stays all-`True`, so the
whole dataset is returned in original order. -/
theorem c7_empty_categories_all_rows (df : List Row) :
    recommendR df [] JsonLimit.absent = RecResult.ok df := by
  have h1 : filteredRows df [] = df := by
    show ((df.zip (df.map (fun _ => true))).filter (fun p => p.2)).map
      (fun p => p.1) = df
    exact filter_true_mask df
  show RecResult.ok (filteredRows df []) = RecResult.ok df
  rw [h1]

/-- C8: the limits `"all"`, `0`, `-5`, absent, and every string that fails
to parse as an integer all leave the result unlimited, while a positive
integer `k` truncates to the first `k` rows of the matched set, in
original order. -/
theorem c8_limit_semantics (df : List Row) (cats : List String) :
    recommendR df cats (JsonLimit.str "all") = RecResult.ok (filteredRows df cats)
    ∧ recommendR df cats (JsonLimit.int 0) = RecResult.ok (filteredRows df cats)
    ∧ recommendR df cats (JsonLimit.int (-5)) = RecResult.ok (filteredRows df cats)
    ∧ recommendR df cats JsonLimit.absent = RecResult.ok (filteredRows df cats)
    ∧ (∀ s : String, pyIntOfString s = Option.none →
        recommendR df cats (JsonLimit.str s) = RecResult.ok (filteredRows df cats))
    ∧ (∀ k : Int, 0 < k →
        recommendR df cats (JsonLimit.int k)
          = RecResult.ok ((filteredRows df cats).take k.toNat)) := by
  refine ⟨rfl, rfl, rfl, rfl, ?_, ?_⟩
  · intro s hs
    unfold recommendR
    simp only [parseLimit]
    by_cases h : stripLower s = "all"
    · simp [h]
    · simp [h, hs]
  · intro k hk
    unfold recommendR
    simp only [parseLimit]
    have h : ¬ (k ≤ 0) := not_le.mpr hk
    simp [h]

/-- C8 witness: on a concrete five-row dataset, the unparseable limit
string "seven" returns everything and limit `3` returns the first three
matched rows. -/
theorem c8_limit_witness :
    recommendR df5 [] (JsonLimit.str "seven") = RecResult.ok (filteredRows df5 [])
    ∧ recommendR df5 [] (JsonLimit.int 3)
        = RecResult.ok ((filteredRows df5 []).take (Int.toNat 3)) :=
  ⟨(c8_limit_semantics df5 []).2.2.2.2.1 "seven" (by decide),
   (c8_limit_semantics df5 []).2.2.2.2.2 3 (by decide)⟩

/-- C9: when a reload attempt fails with any load error, the cached
dataset is returned unchanged (Python evaluates `load_csv()` before the
assignment to `df_cache`), and the reported response is the failure
response, distinct from every success response. -/
theorem c9_reload_failure_preserves_cache (cache : Option (List Row))
    (src : CsvSource) (e : LoadErr) (h : load_csv src = Except.error e) :
    (reload_csv cache src).1 = cache
    ∧ (reload_csv cache src).2 = ReloadResp.failed e
    ∧ ∀ n, (reload_csv cache src).2 ≠ ReloadResp.ok n := by
  unfold reload_csv
  rw [h]
  exact ⟨rfl, rfl, fun n hn => by cases hn⟩

/-- C9 witness: a schema-invalid source leaves a concrete cached dataset
untouched and reports the distinct failure response. -/
theorem c9_reload_witness :
    (reload_csv (some dfC1) CsvSource.badSchema).1 = some dfC1
    ∧ (reload_csv (some dfC1) CsvSource.badSchema).2
        = ReloadResp.failed LoadErr.schemaMissingCategory
    ∧ ∀ n, (reload_csv (some dfC1) CsvSource.badSchema).2 ≠ ReloadResp.ok n :=
  c9_reload_failure_preserves_cache (some dfC1) CsvSource.badSchema
    LoadErr.schemaMissingCategory rfl
